import Mathlib

/-!
Verification of the Gemini transport client (`callGemini`, `buildFinalSystemInstruction`,
`parseCandidateSources` in the service module) and its request-handling boundary
(`handleGeminiRequest` in `src/server/gemini/controller.ts`).

Modelling conventions:
* JavaScript `unknown` / untyped JSON values are modelled by the inductive `Json`.
* `string | undefined` fields are `Option String`; JS truthiness of a string is
  "non-empty" (`"" `is falsy), of `undefined`/`null` is false.
* The external world (what `fetch` does on each attempt) is an oracle
  `Nat → FetchOutcome`, indexed by the 1-based attempt number.
* `callGemini` is modelled as a pure function returning a `CallTrace`: the number of
  outbound fetch calls made, the per-attempt `setTimeout` timeout values, the backoff
  delays slept between attempts, and the final outcome (`Except` a classified
  `GeminiAPIError`, mirroring that every failure thrown by the service is a
  `GeminiAPIError`).
-/

set_option linter.unusedVariables false
set_option linter.unnecessarySeqFocus false

namespace Gemini

/-- Untyped JSON-ish value, modelling `unknown` payloads at the inbound boundary. -/
inductive Json where
  | null
  | bool (b : Bool)
  | num (n : Int)
  | str (s : String)
  | arr (elems : List Json)
  | obj (fields : List (String × Json))

/-- `web` object of a grounding attribution: `{ uri?: string; title?: string }`. -/
structure WebInfo where
  uri : Option String
  title : Option String

/-- One element of `groundingMetadata.groundingAttributions`: `{ web?: {...} }`. -/
structure GroundingAttribution where
  web : Option WebInfo

/-- `groundingMetadata` object: `{ groundingAttributions?: [...] }`. -/
structure GroundingMetadata where
  groundingAttributions : Option (List GroundingAttribution)

/-- One part of a candidate's content: `{ text?: string }`. -/
structure PartObj where
  text : Option String

/-- A candidate's `content` object: `{ parts?: [...] }`. -/
structure ContentObj where
  parts : Option (List PartObj)

/-- One provider candidate: `{ content?: {...}, groundingMetadata?: {...} }`. -/
structure Candidate where
  content : Option ContentObj
  groundingMetadata : Option GroundingMetadata

/-- The parsed success body: `{ candidates?: [...] }`. -/
structure GeminiResponse where
  candidates : Option (List Candidate)

/-- `export type GeminiSource = { uri: string; title: string }`. -/
structure GeminiSource where
  uri : String
  title : String

/-- `export type GeminiResult = { text: string; sources: GeminiSource[] }`. -/
structure GeminiResult where
  text : String
  sources : List GeminiSource

/-- The `details?: unknown` payload attached to a `GeminiAPIError`:
either the truthy `error` field of `JSON.parse(txt)`, the raw response text,
or the full parsed success body. -/
inductive ErrDetails where
  | jsonVal (v : Json)
  | text (s : String)
  | response (r : GeminiResponse)

/-- `class GeminiAPIError extends Error { status?: number; details?: unknown }`. -/
structure GeminiAPIError where
  message : String
  status : Option Nat
  details : Option ErrDetails

/-- What the external world does on one attempt:
* `throws name message` – `fetch` (or reading the body) threw a JS error with the
  given `name`/`message` fields (an abort surfaces as `name = "AbortError"`);
* `httpError status txt parsedError` – a response with `resp.ok = false`;
  `txt = await resp.text()`; `parsedError = some v` when `JSON.parse(txt)`
  succeeded with a truthy `error` field `v`, `none` when parsing failed or the
  `error` field was falsy (in which case the details stay the raw text);
* `success body` – a response with `resp.ok = true` whose JSON body parsed to `body`. -/
inductive FetchOutcome where
  | throws (name message : Option String)
  | httpError (status : Nat) (txt : String) (parsedError : Option Json)
  | success (body : GeminiResponse)

/-- The error value reaching the `catch` block of an attempt: either a
`GeminiAPIError` thrown by the service code itself, or a raw JS error. -/
inductive CaughtError where
  | gemini (e : GeminiAPIError)
  | js (name message : Option String)

/-- JS `String.prototype.trim()`: strips leading and trailing whitespace.
Modelled over the character list (ASCII whitespace; the repository only ever
trims to test emptiness). -/
def jsTrim (s : String) : String :=
  ⟨((s.data.dropWhile Char.isWhitespace).reverse.dropWhile Char.isWhitespace).reverse⟩

/-- Fixed directive appended for `language === 'ja-JP'`. -/
def jaDirective : String :=
  "\n\nAlways answer ONLY in Japanese (日本語) regardless of input language. Use natural, friendly Japanese."

/-- Fixed directive appended for `language === 'en-US'`. -/
def enDirective : String :=
  "\n\nAlways answer ONLY in English regardless of input language. Use natural, friendly English."

/-- `buildFinalSystemInstruction(systemInstruction, language)`.
`systemInstruction || ''` collapses `undefined` to `''` (and leaves every string,
including `''`, unchanged as a value). -/
def buildFinalSystemInstruction (systemInstruction : Option String)
    (language : Option String) : String :=
  let final := match systemInstruction with
    | some s => s
    | none => ""
  if language = some "ja-JP" then final ++ jaDirective
  else if language = some "en-US" then final ++ enDirective
  else final

/-- The element-wise map inside `parseCandidateSources`:
`{ uri: a?.web?.uri || '', title: a?.web?.title || 'External Source' }`.
JS `x || d` on strings yields `d` when `x` is `undefined` or `''`. -/
def sourceOfAttribution (a : GroundingAttribution) : GeminiSource :=
  let uri := match a.web with
    | some w => match w.uri with
      | some u => if u = "" then "" else u
      | none => ""
    | none => ""
  let title := match a.web with
    | some w => match w.title with
      | some t => if t = "" then "External Source" else t
      | none => "External Source"
    | none => "External Source"
  ⟨uri, title⟩

/-- `parseCandidateSources(candidate)`: returns `[]` unless the candidate is an
object with an object `groundingMetadata` carrying a truthy
`groundingAttributions`, else maps each attribution. -/
def parseCandidateSources (candidate : Option Candidate) : List GeminiSource :=
  match candidate with
  | none => []
  | some c =>
    match c.groundingMetadata with
    | none => []
    | some g =>
      match g.groundingAttributions with
      | none => []
      | some arr => arr.map sourceOfAttribution

/-- `result?.candidates?.[0]`. -/
def firstCandidate (r : GeminiResponse) : Option Candidate :=
  match r.candidates with
  | some (c :: _) => some c
  | _ => none

/-- `candidate?.content?.parts?.[0]?.text`. -/
def candidateText (candidate : Option Candidate) : Option String :=
  match candidate with
  | some cand =>
    match cand.content with
    | some co =>
      match co.parts with
      | some (p :: _) => p.text
      | _ => none
    | none => none
  | none => none

/-- Details attached to a non-success HTTP status:
`let details = txt; try { details = JSON.parse(txt).error || txt } catch {}` —
the truthy `error` field of the parsed body when available, else the raw text. -/
def httpDetails (txt : String) (parsedError : Option Json) : ErrDetails :=
  match parsedError with
  | some v => .jsonVal v
  | none => .text txt

/-- The body of one attempt's `try` block: builds the attempt's outcome from the
oracle's `FetchOutcome`, producing either a `GeminiResult` or the error value that
reaches the `catch` block. -/
def processAttempt (o : FetchOutcome) : Except CaughtError GeminiResult :=
  match o with
  | .throws name message => .error (.js name message)
  | .httpError status txt parsedError =>
    .error (.gemini ⟨"Gemini API Error: " ++ toString status, some status,
      some (httpDetails txt parsedError)⟩)
  | .success body =>
    let candidate := firstCandidate body
    match candidateText candidate with
    | none =>
      .error (.gemini ⟨"Could not parse response from Gemini API.", some 500, some (.response body)⟩)
    | some t =>
      if t = "" then
        .error (.gemini ⟨"Could not parse response from Gemini API.", some 500, some (.response body)⟩)
      else
        .ok ⟨t, parseCandidateSources candidate⟩

/-- Final-attempt normalization in the `catch` block:
a `GeminiAPIError` is re-thrown unchanged; `e.name === 'AbortError'` becomes the
timeout error (no status); otherwise `e.message || 'Unknown error calling Gemini'`. -/
def normalizeError (c : CaughtError) : GeminiAPIError :=
  match c with
  | .gemini e => e
  | .js name message =>
    if name = some "AbortError" then ⟨"Request to Gemini timed out", none, none⟩
    else
      match message with
      | some m => if m = "" then ⟨"Unknown error calling Gemini", none, none⟩ else ⟨m, none, none⟩
      | none => ⟨"Unknown error calling Gemini", none, none⟩

/-- Observable trace of one `callGemini` invocation: number of outbound fetch
calls, the per-attempt `setTimeout` timeout values (ms), the backoff delays slept
between attempts (ms), and the final outcome. -/
structure CallTrace where
  calls : Nat
  timeouts : List Nat
  delays : List Nat
  result : Except GeminiAPIError GeminiResult

/-- `const baseTimeoutMs = 8000`. -/
def baseTimeoutMs : Nat := 8000

/-- `const maxAttempts = 2`. -/
def maxAttempts : Nat := 2

/-- The retry loop `for (attempt = 1; attempt <= maxAttempts; attempt++)`,
structured on the number of remaining attempts (`remaining = maxAttempts - attempt + 1`;
`isLast` in the source is `attempt === maxAttempts`, i.e. `remaining = 1`).
Each attempt arms a timer of `baseTimeoutMs * attempt`; a failed non-last attempt
sleeps `200 * attempt` ms and retries; the last failure is normalized and thrown.
The `remaining = 0` case is the unreachable throw after the loop. -/
def runAttempts (oracle : Nat → FetchOutcome) : Nat → Nat → CallTrace
  | _, 0 => ⟨0, [], [], .error ⟨"Unexpected error in callGemini", none, none⟩⟩
  | attempt, remaining + 1 =>
    let timeoutMs := baseTimeoutMs * attempt
    match processAttempt (oracle attempt) with
    | .ok res => ⟨1, [timeoutMs], [], .ok res⟩
    | .error caught =>
      if remaining = 0 then
        ⟨1, [timeoutMs], [], .error (normalizeError caught)⟩
      else
        let rest := runAttempts oracle (attempt + 1) remaining
        ⟨1 + rest.calls, timeoutMs :: rest.timeouts, 200 * attempt :: rest.delays, rest.result⟩

/-- JS falsiness of `GEMINI_API_KEY` (`process.env` value, `string | undefined`):
`undefined` or `''`. -/
def keyFalsy (apiKey : Option String) : Bool :=
  match apiKey with
  | none => true
  | some k => k == ""

/-- The outbound payload assembled by `callGemini`: the prompt as sole content
part, the composed system instruction, and the `googleSearch` tool flag. -/
structure GeminiPayload where
  contentsText : String
  systemInstructionText : String
  googleSearchGrounding : Bool

/-- The `payload` object built in `callGemini` before the retry loop. -/
def buildPayload (promptText : String) (systemInstruction : String)
    (language : Option String) : GeminiPayload :=
  ⟨promptText, buildFinalSystemInstruction (some systemInstruction) language, true⟩

/-- `callGemini(promptText, systemInstruction, language)`, with the credential and
the per-attempt fetch behaviour passed explicitly. Guards (in source order):
`if (!GEMINI_API_KEY) throw ...'key not configured'`;
`if (!promptText || !promptText.trim()) throw 'promptText is required'`;
then the retry loop with `maxAttempts = 2`. -/
def callGemini (apiKey : Option String) (promptText : String)
    (systemInstruction : String) (language : Option String)
    (oracle : Nat → FetchOutcome) : CallTrace :=
  if keyFalsy apiKey then
    ⟨0, [], [], .error ⟨"Server-side Gemini API key not configured.", none, none⟩⟩
  else if promptText = "" ∨ jsTrim promptText = "" then
    ⟨0, [], [], .error ⟨"promptText is required", none, none⟩⟩
  else
    runAttempts oracle 1 maxAttempts

/-- `typeof body === 'object'` together with `body` being truthy: JSON objects and
arrays qualify; `null` is typeof `'object'` but falsy. -/
def jsObjectLike : Json → Bool
  | .obj _ => true
  | .arr _ => true
  | _ => false

/-- `const payload = (body && typeof body === 'object') ? body : {}`. -/
def payloadOf (body : Json) : Json :=
  if jsObjectLike body then body else .obj []

/-- Property lookup `payload[key]` (arrays have no string-named fields here). -/
def lookupField (j : Json) (key : String) : Option Json :=
  match j with
  | .obj fields => (fields.find? (fun p => p.1 == key)).map (fun p => p.2)
  | _ => none

/-- `typeof payload[key] === 'string' ? payload[key] : <absent>`. -/
def extractStringField (body : Json) (key : String) : Option String :=
  match lookupField (payloadOf body) key with
  | some (.str s) => some s
  | _ => none

/-- `const promptText = typeof payload['promptText'] === 'string' ? ... : ''`. -/
def extractPromptText (body : Json) : String :=
  (extractStringField body "promptText").getD ""

/-- `const systemInstruction = typeof payload['systemInstruction'] === 'string' ? ... : ''`. -/
def extractSystemInstruction (body : Json) : String :=
  (extractStringField body "systemInstruction").getD ""

/-- `const language = typeof payload['language'] === 'string' ? ... : undefined`. -/
def extractLanguage (body : Json) : Option String :=
  extractStringField body "language"

/-- Whether `needle` occurs as a contiguous sublist of `hay`. -/
def listInfixOf (needle : List Char) : List Char → Bool
  | [] => needle.isPrefixOf []
  | c :: rest => needle.isPrefixOf (c :: rest) || listInfixOf needle rest

/-- `str.includes(sub)`. -/
def strIncludes (s sub : String) : Bool :=
  listInfixOf sub.data s.data

/-- The JSON response envelope produced by the controller: a success result
(status 200 implicit) or an error body `{error, details?}` with a status code. -/
inductive ApiResponse where
  | ok (result : GeminiResult)
  | err (status : Nat) (error : String) (details : Option ErrDetails)

/-- Observable trace of one `handleGeminiRequest` invocation. -/
structure HandlerTrace where
  calls : Nat
  delays : List Nat
  response : ApiResponse

/-- The controller's inner `catch` branch:
`status = err?.message && err.message.includes('Gemini API Error') ? 502 : 500`;
body `{error: err.message || 'Gemini service error', details: err.details}`. -/
def mapServiceError (e : GeminiAPIError) : ApiResponse :=
  let status := if e.message ≠ "" ∧ strIncludes e.message "Gemini API Error" = true then 502 else 500
  .err status (if e.message = "" then "Gemini service error" else e.message) e.details

/-- `handleGeminiRequest(body)`: extracts the three fields (wrong-typed fields
default), returns 400 `{error: 'Missing promptText'}` when `!promptText`, else
invokes `callGemini` and maps its outcome. The outer catch (500
`'Internal server error'`) is unreachable here: every operation in the model is
total, as is the extraction in the source for any JSON body. -/
def handleGeminiRequest (apiKey : Option String) (oracle : Nat → FetchOutcome)
    (body : Json) : HandlerTrace :=
  let promptText := extractPromptText body
  let systemInstruction := extractSystemInstruction body
  let language := extractLanguage body
  if promptText = "" then
    ⟨0, [], .err 400 "Missing promptText" none⟩
  else
    let tr := callGemini apiKey promptText systemInstruction language oracle
    match tr.result with
    | .ok result => ⟨tr.calls, tr.delays, .ok result⟩
    | .error e => ⟨tr.calls, tr.delays, mapServiceError e⟩

/-- The per-attribution mapping as the spec's words state it: URI defaults to `""`
only when missing, title defaults to `"External Source"` only when missing. Used to
compare the code's mapping against the claim. -/
def specSourceOfAttribution (a : GroundingAttribution) : GeminiSource :=
  ⟨(a.web.bind WebInfo.uri).getD "", (a.web.bind WebInfo.title).getD "External Source"⟩

/-- The per-attribution mapping as amended: a missing **or empty** title becomes
the placeholder; a missing URI becomes `""` (an empty URI stays `""`). -/
def amendedSourceOfAttribution (a : GroundingAttribution) : GeminiSource :=
  let t := (a.web.bind WebInfo.title).getD ""
  ⟨(a.web.bind WebInfo.uri).getD "", if t = "" then "External Source" else t⟩

/-- `typeof j === 'string'`. -/
def jsIsString : Json → Bool
  | .str _ => true
  | _ => false

/-! Helper lemmas unfolding the retry loop, shared by the claim theorems. -/

theorem runAttempts_succ_ok (oracle : Nat → FetchOutcome) (a r : Nat) (res : GeminiResult)
    (h : processAttempt (oracle a) = .ok res) :
    runAttempts oracle a (r + 1) = ⟨1, [baseTimeoutMs * a], [], .ok res⟩ := by
  simp [runAttempts, h]

theorem runAttempts_last_err (oracle : Nat → FetchOutcome) (a : Nat) (c : CaughtError)
    (h : processAttempt (oracle a) = .error c) :
    runAttempts oracle a 1 = ⟨1, [baseTimeoutMs * a], [], .error (normalizeError c)⟩ := by
  simp [runAttempts, h]

theorem runAttempts_retry (oracle : Nat → FetchOutcome) (a r : Nat) (c : CaughtError)
    (h : processAttempt (oracle a) = .error c) (hr : r ≠ 0) :
    runAttempts oracle a (r + 1) =
      ⟨1 + (runAttempts oracle (a + 1) r).calls,
       baseTimeoutMs * a :: (runAttempts oracle (a + 1) r).timeouts,
       200 * a :: (runAttempts oracle (a + 1) r).delays,
       (runAttempts oracle (a + 1) r).result⟩ := by
  simp [runAttempts, h, hr]

theorem callGemini_run (apiKey : Option String) (pt si : String) (lang : Option String)
    (oracle : Nat → FetchOutcome)
    (hk : keyFalsy apiKey = false) (h1 : pt ≠ "") (h2 : jsTrim pt ≠ "") :
    callGemini apiKey pt si lang oracle = runAttempts oracle 1 2 := by
  simp [callGemini, hk, h1, h2, maxAttempts]

theorem callGemini_first_ok (apiKey : Option String) (pt si : String) (lang : Option String)
    (oracle : Nat → FetchOutcome) (res : GeminiResult)
    (hk : keyFalsy apiKey = false) (h1 : pt ≠ "") (h2 : jsTrim pt ≠ "")
    (hp : processAttempt (oracle 1) = .ok res) :
    callGemini apiKey pt si lang oracle = ⟨1, [8000], [], .ok res⟩ := by
  rw [callGemini_run apiKey pt si lang oracle hk h1 h2]
  rw [show (2 : Nat) = 1 + 1 from rfl, runAttempts_succ_ok oracle 1 1 res hp]
  rfl

theorem callGemini_retry_ok (apiKey : Option String) (pt si : String) (lang : Option String)
    (oracle : Nat → FetchOutcome) (c1 : CaughtError) (res : GeminiResult)
    (hk : keyFalsy apiKey = false) (h1 : pt ≠ "") (h2 : jsTrim pt ≠ "")
    (hp1 : processAttempt (oracle 1) = .error c1)
    (hp2 : processAttempt (oracle 2) = .ok res) :
    callGemini apiKey pt si lang oracle = ⟨2, [8000, 16000], [200], .ok res⟩ := by
  rw [callGemini_run apiKey pt si lang oracle hk h1 h2]
  rw [show (2 : Nat) = 1 + 1 from rfl, runAttempts_retry oracle 1 1 c1 hp1 (by decide)]
  rw [show (1 : Nat) + 1 = 2 from rfl]
  rw [runAttempts_succ_ok oracle 2 0 res hp2]
  rfl

theorem callGemini_both_err (apiKey : Option String) (pt si : String) (lang : Option String)
    (oracle : Nat → FetchOutcome) (c1 c2 : CaughtError)
    (hk : keyFalsy apiKey = false) (h1 : pt ≠ "") (h2 : jsTrim pt ≠ "")
    (hp1 : processAttempt (oracle 1) = .error c1)
    (hp2 : processAttempt (oracle 2) = .error c2) :
    callGemini apiKey pt si lang oracle = ⟨2, [8000, 16000], [200], .error (normalizeError c2)⟩ := by
  rw [callGemini_run apiKey pt si lang oracle hk h1 h2]
  rw [show (2 : Nat) = 1 + 1 from rfl, runAttempts_retry oracle 1 1 c1 hp1 (by decide)]
  rw [show (1 : Nat) + 1 = 2 from rfl]
  rw [runAttempts_last_err oracle 2 c2 hp2]
  rfl

/-- Pointwise, the code's attribution mapping (`|| ''` / `|| 'External Source'`)
agrees with the amended description (defaults applied when missing or empty). -/
theorem sourceOfAttribution_eq_amended (a : GroundingAttribution) :
    sourceOfAttribution a = amendedSourceOfAttribution a := by
  rcases a with ⟨w⟩
  rcases w with _ | ⟨u, t⟩
  · rfl
  · rcases u with _ | u
    · rcases t with _ | t
      · rfl
      · by_cases ht : t = "" <;> simp [sourceOfAttribution, amendedSourceOfAttribution, ht]
    · rcases t with _ | t
      · by_cases hu : u = "" <;> simp [sourceOfAttribution, amendedSourceOfAttribution, hu]
      · by_cases hu : u = "" <;> by_cases ht : t = "" <;>
          simp [sourceOfAttribution, amendedSourceOfAttribution, hu, ht]

/-- Claim C1, as stated, is false: for the whitespace-only prompt `" "` the
request handler does not return 400 `{error: "Missing promptText"}` — the
transport client is invoked, rejects the prompt itself, and the boundary answers
500 `{error: "promptText is required"}` (still with zero outbound calls). -/
theorem C1_counterexample :
    (handleGeminiRequest (some "k") (fun _ => FetchOutcome.throws none none)
          (Json.obj [("promptText", Json.str " ")])).response =
        ApiResponse.err 500 "promptText is required" none ∧
      (handleGeminiRequest (some "k") (fun _ => FetchOutcome.throws none none)
          (Json.obj [("promptText", Json.str " ")])).response ≠
        ApiResponse.err 400 "Missing promptText" none ∧
      (handleGeminiRequest (some "k") (fun _ => FetchOutcome.throws none none)
          (Json.obj [("promptText", Json.str " ")])).calls = 0 := by
  refine ⟨rfl, ?_, rfl⟩
  intro h
  have h' : ApiResponse.err 500 "promptText is required" none =
      ApiResponse.err 400 "Missing promptText" none := h
  injection h' with hs _ _
  exact absurd hs (by decide)

/-- Claim C1 (amended): with the credential configured and a prompt that trims to
the empty string, no outbound call is ever attempted; an exactly-empty
`promptText` is rejected by the handler itself with 400
`{error: "Missing promptText"}`, while a whitespace-only non-empty `promptText`
reaches the transport client, which raises its validation error before any
network activity, and the handler answers 500 `{error: "promptText is required"}`. -/
theorem C1_amended_reject_paths (apiKey : Option String) (oracle : Nat → FetchOutcome)
    (body : Json) (hk : keyFalsy apiKey = false)
    (hws : jsTrim (extractPromptText body) = "") :
    (handleGeminiRequest apiKey oracle body).calls = 0 ∧
      (extractPromptText body = "" →
        handleGeminiRequest apiKey oracle body = ⟨0, [], .err 400 "Missing promptText" none⟩) ∧
      (extractPromptText body ≠ "" →
        handleGeminiRequest apiKey oracle body =
          ⟨0, [], .err 500 "promptText is required" none⟩) := by
  by_cases hpt : extractPromptText body = ""
  · refine ⟨?_, fun _ => ?_, fun h => absurd hpt h⟩ <;> simp [handleGeminiRequest, hpt]
  · have hcg : callGemini apiKey (extractPromptText body) (extractSystemInstruction body)
        (extractLanguage body) oracle =
        ⟨0, [], [], .error ⟨"promptText is required", none, none⟩⟩ := by
      simp [callGemini, hk, hws]
    refine ⟨?_, fun h => absurd h hpt, fun _ => ?_⟩ <;>
      simp [handleGeminiRequest, hpt, hcg] <;> rfl

/-- Witness for C1 (amended) at the whitespace-only prompt `" "`. -/
theorem C1_witness :
    (handleGeminiRequest (some "k") (fun _ => FetchOutcome.throws none none)
          (Json.obj [("promptText", Json.str " ")])).calls = 0 ∧
      (extractPromptText (Json.obj [("promptText", Json.str " ")]) = "" →
        handleGeminiRequest (some "k") (fun _ => FetchOutcome.throws none none)
            (Json.obj [("promptText", Json.str " ")]) =
          ⟨0, [], .err 400 "Missing promptText" none⟩) ∧
      (extractPromptText (Json.obj [("promptText", Json.str " ")]) ≠ "" →
        handleGeminiRequest (some "k") (fun _ => FetchOutcome.throws none none)
            (Json.obj [("promptText", Json.str " ")]) =
          ⟨0, [], .err 500 "promptText is required" none⟩) :=
  C1_amended_reject_paths (some "k") (fun _ => FetchOutcome.throws none none)
    (Json.obj [("promptText", Json.str " ")]) (by decide) (by decide)

/-- Claim C2, as stated, is false: a 200-level response with no text in the first
candidate's first part is NOT terminal on attempt 1 — the parse error is caught
by the generic retry handler, one 200 ms backoff elapses and a second outbound
call is made (2 calls in total, not 1). -/
theorem C2_counterexample :
    (callGemini (some "k") "hi" "" none (fun _ => FetchOutcome.success ⟨none⟩)).calls = 2 ∧
      (callGemini (some "k") "hi" "" none (fun _ => FetchOutcome.success ⟨none⟩)).calls ≠ 1 ∧
      (callGemini (some "k") "hi" "" none (fun _ => FetchOutcome.success ⟨none⟩)).delays =
        [200] ∧
      (callGemini (some "k") "hi" "" none (fun _ => FetchOutcome.success ⟨none⟩)).result =
        Except.error ⟨"Could not parse response from Gemini API.", some 500,
          some (ErrDetails.response ⟨none⟩)⟩ := by
  refine ⟨rfl, by decide, rfl, rfl⟩

/-- Claim C2 (amended): a 200-level response without parseable text is a
retryable failure like any other — when both attempts return such responses the
client makes 2 outbound calls with one 200 ms backoff, and the final raised
error is the classified parse error with status 500 whose details are the full
raw parsed body of the last response. -/
theorem C2_amended_parse_error (apiKey : Option String)
    (promptText systemInstruction : String) (language : Option String)
    (r1 r2 : GeminiResponse)
    (hk : keyFalsy apiKey = false) (h1 : promptText ≠ "") (h2 : jsTrim promptText ≠ "")
    (hr1 : candidateText (firstCandidate r1) = none ∨ candidateText (firstCandidate r1) = some "")
    (hr2 : candidateText (firstCandidate r2) = none ∨ candidateText (firstCandidate r2) = some "") :
    callGemini apiKey promptText systemInstruction language
        (fun n => if n = 1 then .success r1 else .success r2) =
      ⟨2, [8000, 16000], [200],
        .error ⟨"Could not parse response from Gemini API.", some 500,
          some (.response r2)⟩⟩ := by
  have hpa : ∀ r : GeminiResponse,
      (candidateText (firstCandidate r) = none ∨ candidateText (firstCandidate r) = some "") →
      processAttempt (.success r) =
        .error (.gemini ⟨"Could not parse response from Gemini API.", some 500,
          some (.response r)⟩) := by
    intro r hr
    rcases hr with hr | hr <;> simp [processAttempt, hr]
  exact (callGemini_both_err apiKey promptText systemInstruction language
    (fun n => if n = 1 then .success r1 else .success r2) _ _ hk h1 h2
    (hpa r1 hr1) (hpa r2 hr2)).trans rfl

/-- Witness for C2 (amended) on the empty response body. -/
theorem C2_witness :
    callGemini (some "k") "hi" "" none
        (fun n => if n = 1 then FetchOutcome.success ⟨none⟩ else FetchOutcome.success ⟨none⟩) =
      ⟨2, [8000, 16000], [200],
        Except.error ⟨"Could not parse response from Gemini API.", some 500,
          some (ErrDetails.response ⟨none⟩)⟩⟩ :=
  C2_amended_parse_error (some "k") "hi" "" none ⟨none⟩ ⟨none⟩
    (by decide) (by decide) (by decide) (Or.inl rfl) (Or.inl rfl)

/-- Claim C3: HTTP status 429 on both attempts produces exactly 2 outbound calls
separated by exactly one 200 ms backoff (200 ms × attempt 1), and the boundary
responds 502 with the classified error's message `"Gemini API Error: 429"` and
its details. -/
theorem C3_retry_on_429 (apiKey : Option String) (body : Json) (txt1 txt2 : String)
    (p1 p2 : Option Json)
    (hk : keyFalsy apiKey = false)
    (h1 : extractPromptText body ≠ "") (h2 : jsTrim (extractPromptText body) ≠ "") :
    handleGeminiRequest apiKey
        (fun n => if n = 1 then .httpError 429 txt1 p1 else .httpError 429 txt2 p2) body =
      ⟨2, [200], .err 502 "Gemini API Error: 429" (some (httpDetails txt2 p2))⟩ := by
  have hcall := callGemini_both_err apiKey (extractPromptText body)
    (extractSystemInstruction body) (extractLanguage body)
    (fun n => if n = 1 then .httpError 429 txt1 p1 else .httpError 429 txt2 p2)
    (.gemini ⟨"Gemini API Error: " ++ toString 429, some 429, some (httpDetails txt1 p1)⟩)
    (.gemini ⟨"Gemini API Error: " ++ toString 429, some 429, some (httpDetails txt2 p2)⟩)
    hk h1 h2 rfl rfl
  simp [handleGeminiRequest, h1, hcall]
  rfl

/-- Witness for C3 at a concrete request and 429 responses. -/
theorem C3_witness :
    handleGeminiRequest (some "k")
        (fun n => if n = 1 then FetchOutcome.httpError 429 "quota" none
                  else FetchOutcome.httpError 429 "quota" none)
        (Json.obj [("promptText", Json.str "hello")]) =
      ⟨2, [200], ApiResponse.err 502 "Gemini API Error: 429"
        (some (httpDetails "quota" none))⟩ :=
  C3_retry_on_429 (some "k") (Json.obj [("promptText", Json.str "hello")]) "quota" "quota"
    none none (by decide) (by decide) (by decide)

/-- Claim C4: on the final attempt's failure the raised value is
`normalizeError` of the caught error, and the normalization behaves as claimed:
an already-classified error is re-raised unchanged; an abort raises the timeout
message with no status; any other error keeps its non-empty message; a missing
or empty message falls back to the generic unknown-error message (the literal
`"Unknown error calling Gemini"`, which carries the generic "Unknown error"
text). Every error crossing the boundary is thus a classified `GeminiAPIError`
(the `result` type admits nothing else). -/
theorem C4_final_attempt_normalization (apiKey : Option String)
    (promptText systemInstruction : String) (language : Option String)
    (oracle : Nat → FetchOutcome) (c1 c2 : CaughtError)
    (hk : keyFalsy apiKey = false) (h1 : promptText ≠ "") (h2 : jsTrim promptText ≠ "")
    (hp1 : processAttempt (oracle 1) = .error c1)
    (hp2 : processAttempt (oracle 2) = .error c2) :
    (callGemini apiKey promptText systemInstruction language oracle).result =
        .error (normalizeError c2) ∧
      (∀ e : GeminiAPIError, c2 = .gemini e → normalizeError c2 = e) ∧
      (∀ name message, c2 = .js name message → name = some "AbortError" →
        normalizeError c2 = ⟨"Request to Gemini timed out", none, none⟩) ∧
      (∀ name message m, c2 = .js name message → name ≠ some "AbortError" →
        message = some m → m ≠ "" → normalizeError c2 = ⟨m, none, none⟩) ∧
      (∀ name message, c2 = .js name message → name ≠ some "AbortError" →
        (message = none ∨ message = some "") →
        normalizeError c2 = ⟨"Unknown error calling Gemini", none, none⟩) := by
  refine ⟨?_, ?_, ?_, ?_, ?_⟩
  · rw [callGemini_both_err apiKey promptText systemInstruction language oracle c1 c2
      hk h1 h2 hp1 hp2]
  · rintro e rfl; rfl
  · rintro name message rfl hname; simp [normalizeError, hname]
  · rintro name message m rfl hname rfl hm; simp [normalizeError, hname, hm]
  · rintro name message rfl hname hmsg
    rcases hmsg with rfl | rfl <;> simp [normalizeError, hname]

/-- Witness for C4: an abort on both attempts surfaces as the classified timeout
error with no status. -/
theorem C4_witness :
    (callGemini (some "k") "hi" "" none
        (fun _ => FetchOutcome.throws (some "AbortError") none)).result =
      Except.error ⟨"Request to Gemini timed out", none, none⟩ := by
  have h := C4_final_attempt_normalization (some "k") "hi" "" none
    (fun _ => FetchOutcome.throws (some "AbortError") none)
    (CaughtError.js (some "AbortError") none) (CaughtError.js (some "AbortError") none)
    (by decide) (by decide) (by decide) rfl rfl
  rw [h.1]
  rfl

/-- Claim C5: for every language value other than "ja-JP" and "en-US" (including
an absent language), the composed system instruction equals the input system
instruction unchanged. -/
theorem C5_language_passthrough (systemInstruction : String) (language : Option String)
    (hja : language ≠ some "ja-JP") (hen : language ≠ some "en-US") :
    buildFinalSystemInstruction (some systemInstruction) language = systemInstruction := by
  simp [buildFinalSystemInstruction, hja, hen]

/-- Witness for C5 at the unrecognized tag "fr-FR". -/
theorem C5_witness :
    buildFinalSystemInstruction (some "You are a weather assistant.") (some "fr-FR") =
      "You are a weather assistant." :=
  C5_language_passthrough "You are a weather assistant." (some "fr-FR") (by decide) (by decide)

/-- Claim C6, as stated, is false on an attribution whose `web.title` is present
but empty: the code maps it to the placeholder `"External Source"`, whereas the
claim's element-wise description keeps the present (empty) title. -/
theorem C6_counterexample :
    parseCandidateSources (some ⟨none, some ⟨some [⟨some ⟨some "u", some ""⟩⟩]⟩⟩) =
        [⟨"u", "External Source"⟩] ∧
      List.map specSourceOfAttribution [⟨some ⟨some "u", some ""⟩⟩] = [⟨"u", ""⟩] ∧
      parseCandidateSources (some ⟨none, some ⟨some [⟨some ⟨some "u", some ""⟩⟩]⟩⟩) ≠
        List.map specSourceOfAttribution [⟨some ⟨some "u", some ""⟩⟩] := by
  refine ⟨rfl, rfl, ?_⟩
  intro h
  have h' : ([⟨"u", "External Source"⟩] : List GeminiSource) = [⟨"u", ""⟩] := h
  injection h' with hhead _
  injection hhead with _ htitle
  exact absurd htitle (by decide)

/-- Claim C6 (amended): the source list is the first candidate's
grounding-attribution list mapped element-wise to the web URI (or `""` when
missing) and the web title (or the placeholder `"External Source"` when missing
**or empty**); absent grounding metadata or attribution list yields `[]`. -/
theorem C6_amended_sources (c : Candidate) :
    (∀ g l, c.groundingMetadata = some g → g.groundingAttributions = some l →
        parseCandidateSources (some c) = l.map amendedSourceOfAttribution) ∧
      (c.groundingMetadata = none → parseCandidateSources (some c) = []) ∧
      (∀ g, c.groundingMetadata = some g → g.groundingAttributions = none →
        parseCandidateSources (some c) = []) ∧
      parseCandidateSources none = [] := by
  refine ⟨?_, ?_, ?_, rfl⟩
  · rintro g l hg hl
    simp [parseCandidateSources, hg, hl]
    exact fun a _ => sourceOfAttribution_eq_amended a
  · intro hg; simp [parseCandidateSources, hg]
  · rintro g hg hl; simp [parseCandidateSources, hg, hl]

/-- Witness for C6 (amended) on the spec's own test vector. -/
theorem C6_witness :
    parseCandidateSources (some ⟨none,
        some ⟨some [⟨some ⟨some "https://a.example", some "A"⟩⟩, ⟨some ⟨none, none⟩⟩]⟩⟩) =
      [⟨"https://a.example", "A"⟩, ⟨"", "External Source"⟩] := by
  have h := (C6_amended_sources ⟨none,
      some ⟨some [⟨some ⟨some "https://a.example", some "A"⟩⟩, ⟨some ⟨none, none⟩⟩]⟩⟩).1
    ⟨some [⟨some ⟨some "https://a.example", some "A"⟩⟩, ⟨some ⟨none, none⟩⟩]⟩
    [⟨some ⟨some "https://a.example", some "A"⟩⟩, ⟨some ⟨none, none⟩⟩] rfl rfl
  rw [h]
  rfl

/-- Claim C7: with the API credential absent from the environment, `callGemini`
raises the classified configuration error with zero outbound calls, for every
prompt (including the empty one) — so the credential check precedes the
prompt-emptiness check. -/
theorem C7_missing_credential (promptText systemInstruction : String)
    (language : Option String) (oracle : Nat → FetchOutcome) :
    callGemini none promptText systemInstruction language oracle =
      ⟨0, [], [], .error ⟨"Server-side Gemini API key not configured.", none, none⟩⟩ := rfl

/-- Claim C8: attempt N of the transport client arms a per-attempt timeout of
N × 8000 ms: a run that ends on attempt 1 used timeout 8000 × 1, a run reaching
attempt 2 used timeouts 8000 × 1 and 8000 × 2. -/
theorem C8_per_attempt_timeout (apiKey : Option String)
    (promptText systemInstruction : String) (language : Option String)
    (oracle : Nat → FetchOutcome)
    (hk : keyFalsy apiKey = false) (h1 : promptText ≠ "") (h2 : jsTrim promptText ≠ "") :
    (callGemini apiKey promptText systemInstruction language oracle).timeouts = [8000 * 1] ∧
        (callGemini apiKey promptText systemInstruction language oracle).calls = 1 ∨
      (callGemini apiKey promptText systemInstruction language oracle).timeouts =
          [8000 * 1, 8000 * 2] ∧
        (callGemini apiKey promptText systemInstruction language oracle).calls = 2 := by
  rcases hp : processAttempt (oracle 1) with c1 | res
  · rcases hp2 : processAttempt (oracle 2) with c2 | res2
    · right
      rw [callGemini_both_err apiKey promptText systemInstruction language oracle c1 c2
        hk h1 h2 hp hp2]
      exact ⟨rfl, rfl⟩
    · right
      rw [callGemini_retry_ok apiKey promptText systemInstruction language oracle c1 res2
        hk h1 h2 hp hp2]
      exact ⟨rfl, rfl⟩
  · left
    rw [callGemini_first_ok apiKey promptText systemInstruction language oracle res
      hk h1 h2 hp]
    exact ⟨rfl, rfl⟩

/-- Witness for C8 on a first-attempt success. -/
theorem C8_witness :
    (callGemini (some "k") "hi" "" none
          (fun _ => FetchOutcome.success ⟨some [⟨some ⟨some [⟨some "yo"⟩]⟩, none⟩]⟩)).timeouts =
        [8000 * 1] ∧
      (callGemini (some "k") "hi" "" none
          (fun _ => FetchOutcome.success ⟨some [⟨some ⟨some [⟨some "yo"⟩]⟩, none⟩]⟩)).calls = 1 ∨
    (callGemini (some "k") "hi" "" none
          (fun _ => FetchOutcome.success ⟨some [⟨some ⟨some [⟨some "yo"⟩]⟩, none⟩]⟩)).timeouts =
        [8000 * 1, 8000 * 2] ∧
      (callGemini (some "k") "hi" "" none
          (fun _ => FetchOutcome.success ⟨some [⟨some ⟨some [⟨some "yo"⟩]⟩, none⟩]⟩)).calls = 2 :=
  C8_per_attempt_timeout (some "k") "hi" "" none
    (fun _ => FetchOutcome.success ⟨some [⟨some ⟨some [⟨some "yo"⟩]⟩, none⟩]⟩)
    (by decide) (by decide) (by decide)

/-- Claim C9: for every transport-client error (whose message is non-empty, as
all errors the client raises are), the handler's error mapping yields status 502
exactly when the message contains the substring "Gemini API Error", else 500,
with body `{error: message, details: details}`; and when `callGemini` fails on a
valid prompt, the handler's response is exactly that mapping of the error. -/
theorem C9_status_mapping (e : GeminiAPIError) (apiKey : Option String)
    (oracle : Nat → FetchOutcome) (body : Json)
    (hmsg : e.message ≠ "") :
    (strIncludes e.message "Gemini API Error" = true →
        mapServiceError e = .err 502 e.message e.details) ∧
      (strIncludes e.message "Gemini API Error" = false →
        mapServiceError e = .err 500 e.message e.details) ∧
      (extractPromptText body ≠ "" →
        (callGemini apiKey (extractPromptText body) (extractSystemInstruction body)
            (extractLanguage body) oracle).result = .error e →
        (handleGeminiRequest apiKey oracle body).response = mapServiceError e) := by
  refine ⟨?_, ?_, ?_⟩
  · intro hinc; simp [mapServiceError, hmsg, hinc]
  · intro hinc; simp [mapServiceError, hmsg, hinc]
  · intro hpt herr
    simp [handleGeminiRequest, hpt, herr]

/-- Witness for C9 on an upstream API error message. -/
theorem C9_witness :
    mapServiceError ⟨"Gemini API Error: 429", some 429, none⟩ =
      ApiResponse.err 502 "Gemini API Error: 429" none :=
  (C9_status_mapping ⟨"Gemini API Error: 429", some 429, none⟩ (some "k")
    (fun _ => FetchOutcome.throws none none) (Json.obj []) (by decide)).1 (by decide)

/-- Claim C10: for every inbound body that is not an object (or array), or whose
`promptText` field is present but not a string, the handler treats the field as
absent and returns 400 `{error: "Missing promptText"}` with zero outbound calls
— it never falls through to the generic 500 internal-error path. -/
theorem C10_untyped_body_defaults (apiKey : Option String) (oracle : Nat → FetchOutcome)
    (body : Json)
    (h : jsObjectLike body = false ∨
      ∃ j, lookupField body "promptText" = some j ∧ jsIsString j = false) :
    handleGeminiRequest apiKey oracle body = ⟨0, [], .err 400 "Missing promptText" none⟩ := by
  have hpt : extractPromptText body = "" := by
    rcases h with h | ⟨j, hj, hns⟩
    · simp [extractPromptText, extractStringField, payloadOf, h, lookupField]
    · have hobj : jsObjectLike body = true := by
        cases body <;> simp [lookupField] at hj <;> rfl
      simp only [extractPromptText, extractStringField, payloadOf, hobj, if_true]
      rw [hj]
      cases j <;> simp [jsIsString] at hns ⊢
  simp [handleGeminiRequest, hpt]

/-- Witness for C10 on a numeric (non-object) body. -/
theorem C10_witness :
    handleGeminiRequest (some "k") (fun _ => FetchOutcome.throws none none) (Json.num 5) =
      ⟨0, [], ApiResponse.err 400 "Missing promptText" none⟩ :=
  C10_untyped_body_defaults (some "k") (fun _ => FetchOutcome.throws none none) (Json.num 5)
    (Or.inl rfl)

end Gemini
